import Mathlib

/-!
Shallow embedding of the connection-resolution and product-dispatch layer of
the influxdb3 MCP server (src/services/*.ts), together with theorems checking
the natural-language specification against it.

JavaScript values observable by this layer are modelled by an inductive `Json`
type; JS truthiness, `typeof`, property access, `String(...)` coercion and
`JSON.stringify` are modelled explicitly.  Each service method becomes a pure
function of the configuration and of the transport outcome of the (at most
one) network call it performs; the list of issued network requests is returned
alongside the result so that "fails before issuing any request" is statable.
-/

namespace Influx

/-- JSON / JavaScript values visible at this layer. -/
inductive Json where
  | null : Json
  | bool (b : Bool) : Json
  | num (n : Int) : Json
  | str (s : String) : Json
  | arr (xs : List Json) : Json
  | obj (fields : List (String × Json)) : Json

/-- JS truthiness of a defined value. -/
def jsTruthy : Json → Bool
  | .null => false
  | .bool b => b
  | .num n => n != 0
  | .str s => s != ""
  | .arr _ => true
  | .obj _ => true

/-- `typeof x === "object"` (true for objects, arrays and `null`). -/
def isObjectTypeof : Json → Bool
  | .obj _ => true
  | .arr _ => true
  | .null => true
  | _ => false

/-- `Array.isArray`. -/
def Json.isArr : Json → Bool
  | .arr _ => true
  | _ => false

/-- Property access `x[k]`; `none` models `undefined`. -/
def jsGet : Json → String → Option Json
  | .obj fields, k => fields.lookup k
  | _, _ => none

/-- Truthiness of a possibly-undefined value (`undefined` is falsy). -/
def jsTruthyO : Option Json → Bool
  | none => false
  | some v => jsTruthy v

/-- `a?.k` optional chaining after a property access. -/
def jsGetPath (r : Json) (k1 k2 : String) : Option Json :=
  (jsGet r k1).bind fun d => jsGet d k2

/-- JS `a || b` on possibly-undefined values. -/
def jsOrO (a b : Option Json) : Option Json :=
  match a with
  | some v => if jsTruthy v then some v else b
  | none => b

mutual

/-- JS `String(x)` coercion (arrays join with ",", `null` elements become ""). -/
def jsString : Json → String
  | .null => "null"
  | .bool b => cond b "true" "false"
  | .num n => toString n
  | .str s => s
  | .arr xs => String.intercalate "," (jsStringElems xs)
  | .obj _ => "[object Object]"

/-- Element coercions for `Array.prototype.toString`. -/
def jsStringElems : List Json → List String
  | [] => []
  | .null :: xs => "" :: jsStringElems xs
  | x :: xs => jsString x :: jsStringElems xs

end

mutual

/-- `JSON.stringify`. -/
def jsonStringify : Json → String
  | .null => "null"
  | .bool b => cond b "true" "false"
  | .num n => toString n
  | .str s => "\"" ++ s ++ "\""
  | .arr xs => "[" ++ String.intercalate "," (jsonStringifyList xs) ++ "]"
  | .obj fs => "\x7b" ++ String.intercalate "," (jsonStringifyFields fs) ++ "\x7d"

/-- `JSON.stringify` of array elements. -/
def jsonStringifyList : List Json → List String
  | [] => []
  | x :: xs => jsonStringify x :: jsonStringifyList xs

/-- `JSON.stringify` of object fields. -/
def jsonStringifyFields : List (String × Json) → List String
  | [] => []
  | (k, v) :: fs => ("\"" ++ k ++ "\":" ++ jsonStringify v) :: jsonStringifyFields fs

end

/-- Substring test on character lists (`String.prototype.includes`). -/
def charsContain : List Char → List Char → Bool
  | _, [] => true
  | [], _ :: _ => false
  | h :: t, n => if List.isPrefixOf n (h :: t) then true else charsContain t n

/-- `haystack.includes(needle)`. -/
def strContains (haystack needle : String) : Bool :=
  charsContain haystack.data needle.data

/-! ## Configuration (src/config.ts, src/helpers/enums/influx-product-types.enum.ts) -/

/-- Product variant string held in `config.influx.type`; values other than the
three known enum constants are kept as `other` (the services' `switch` default
branches observe them). -/
inductive ProductType where
  | core
  | enterprise
  | cloudDedicated
  | other (s : String)
deriving DecidableEq

/-- The three recognized product variants. -/
def ProductType.isKnownVariant : ProductType → Bool
  | .other _ => false
  | _ => true

/-- String | undefined configuration field: `none` is `undefined`. -/
abbrev ConfField := Option String

/-- Truthiness of a string field (`undefined` and `""` are falsy). -/
def truthyS : ConfField → Bool
  | none => false
  | some s => s != ""

/-- `config.influx` as read by BaseConnectionService (url, token, cluster_id,
account_id, management_token; fields irrelevant to the active variant may be
absent). -/
structure InfluxConfig where
  type : ProductType
  url : ConfField := none
  token : ConfField := none
  cluster_id : ConfField := none
  account_id : ConfField := none
  management_token : ConfField := none

/-- JS `x || ""`. -/
def orEmpty : ConfField → String
  | none => ""
  | some s => s

/-! ## BaseConnectionService (src/services/base-connection.service.ts) -/

/-- `getDataHost()`: cluster-qualified host for cloud-dedicated when a truthy
`cluster_id` is present, otherwise the configured URL (possibly undefined). -/
def getDataHost (c : InfluxConfig) : ConfField :=
  if c.type = .cloudDedicated && truthyS c.cluster_id then
    some ("https://" ++ orEmpty c.cluster_id ++ ".a.influxdb.io")
  else c.url

/-- `getManagementHost()`: fixed control-plane host for cloud-dedicated,
otherwise the configured URL. -/
def getManagementHost (c : InfluxConfig) : ConfField :=
  if c.type = .cloudDedicated then some "https://console.influxdata.com"
  else c.url

/-- `isValidConfig()`: data-operation prerequisites. -/
def isValidConfig (c : InfluxConfig) : Bool :=
  if c.type = .cloudDedicated then truthyS c.cluster_id && truthyS c.token
  else truthyS c.url && truthyS c.token

/-- `hasDataCapabilities()`. -/
def hasDataCapabilities (c : InfluxConfig) : Bool :=
  isValidConfig c

/-- `hasManagementCapabilities()`. -/
def hasManagementCapabilities (c : InfluxConfig) : Bool :=
  if c.type = .cloudDedicated then
    truthyS c.cluster_id && truthyS c.account_id && truthyS c.management_token
  else truthyS c.url && truthyS c.token

/-- The streaming-client handle: host and token it was constructed with. -/
structure InfluxDBClient where
  host : ConfField
  token : ConfField

/-- `initializeClient()` run at construction: builds the handle exactly when
`isValidConfig` holds; the field stays `null` otherwise. -/
def initializeClient (c : InfluxConfig) : Option InfluxDBClient :=
  if isValidConfig c then some { host := getDataHost c, token := c.token }
  else none

/-- `connectionInfo.isConnected` = `!!this.client`. -/
def isConnected (c : InfluxConfig) : Bool :=
  (initializeClient c).isSome

/-- A pre-configured HTTP client: resolved (host, credential) pair. -/
structure HttpClientService where
  host : String
  token : String
deriving DecidableEq

/-- `getInfluxHttpClient(forManagement)` endpoint/credential selection: falsy
host and token both silently default to `""` (`|| ""`); management requests on
cloud-dedicated use the management token, every other combination the data
token. -/
def resolveHttpClient (c : InfluxConfig) (forManagement : Bool) : HttpClientService :=
  { host := orEmpty (if forManagement then getManagementHost c else getDataHost c)
    token :=
      if forManagement && c.type = .cloudDedicated then orEmpty c.management_token
      else orEmpty c.token }

/-- Errors surfaced by the dispatch layer: a thrown `Error` with its message,
or a capability failure raised before any request. -/
inductive OpError where
  | capability (msg : String)
  | thrown (msg : String)
deriving DecidableEq

/-- `getInfluxHttpClient` in the ambient exception monad: its source body
contains no validation and no throw, so resolution always succeeds. -/
def getInfluxHttpClient (c : InfluxConfig) (forManagement : Bool) :
    Except OpError HttpClientService :=
  .ok (resolveHttpClient c forManagement)

/-- Modelled from the spec: `validateDataCapabilities` is called by
QueryService but its definition is not among the available sources; per the
spec it fails with a `CapabilityError` before issuing any request exactly when
`hasDataCapabilities()` is false. -/
def validateDataCapabilities (c : InfluxConfig) : Except OpError Unit :=
  if hasDataCapabilities c then .ok ()
  else .error (.capability "Data capabilities are not available with the current configuration")

/-! ## Transport model -/

/-- One outbound network request (HTTP call or streaming-client query). -/
structure HttpRequest where
  host : String
  path : String
  params : List (String × String) := []
  body : Json := .null

/-- The error object an axios-style failure exposes: `response.status`,
`response.statusText`, `response.data`, `code`, `message`. -/
structure ErrResponse where
  status : Option Nat := none
  statusText : ConfField := none
  data : Option Json := none
  code : ConfField := none
  message : String := ""

/-- Outcome of the single network call an operation issues. -/
inductive HttpOutcome where
  | ok (body : Json)
  | err (e : ErrResponse)

/-- `${x}` template interpolation of a possibly-undefined value. -/
def jsStringU : Option Json → String
  | none => "undefined"
  | some j => jsString j

/-- The message of an `OpError` as seen by a `catch` block. -/
def opErrorMessage : OpError → String
  | .capability m => m
  | .thrown m => m

/-! ## QueryService (src/services/query.service.ts) -/

/-- `error.response?.data?.error || error.response?.statusText || error.message`. -/
def queryErrorText (e : ErrResponse) : String :=
  let dataError : Option Json := e.data.bind fun d => jsGet d "error"
  if jsTruthyO dataError then jsString ((dataError).getD .null)
  else if truthyS e.statusText then orEmpty e.statusText
  else e.message

/-- `handleQueryError`: the centralized status switch of QueryService. -/
def handleQueryError (e : ErrResponse) : OpError :=
  let m := queryErrorText e
  .thrown <|
    if e.status = some 400 then "Bad request: " ++ m
    else if e.status = some 401 then "Unauthorized: " ++ m
    else if e.status = some 403 then "Access denied: " ++ m
    else if e.status = some 404 then "Database not found: " ++ m
    else if e.status = some 405 then "Method not allowed: " ++ m
    else if e.status = some 422 then "Unprocessable entity: " ++ m
    else "Query failed: " ++ m

/-- `Accept` header chosen by format in `executeCoreEnterpriseQuery`. -/
def acceptHeaderFor (format : String) : String :=
  if format = "csv" then "text/csv"
  else if format = "parquet" then "application/vnd.apache.parquet"
  else "application/json"

/-- `executeQuery(query, database, {format})`: validates data capabilities,
then branches on product type (HTTP for core/enterprise, streaming client for
cloud-dedicated, throw for unknown types); failures route through
`handleQueryError`.  Returns the issued requests with the result. -/
def executeQuery (c : InfluxConfig) (query database format : String)
    (out : HttpOutcome) : List HttpRequest × Except OpError Json :=
  match validateDataCapabilities c with
  | .error e => ([], .error e)
  | .ok _ =>
    match c.type with
    | .cloudDedicated =>
      match initializeClient c with
      | none => ([], .error (.thrown "InfluxDB client not initialized"))
      | some client =>
        let req : HttpRequest :=
          { host := orEmpty client.host, path := "query:sql"
            params := [("database", database)], body := .str query }
        match out with
        | .ok body => ([req], .ok body)
        | .err e => ([req], .error (handleQueryError e))
    | .core | .enterprise =>
      let httpClient := resolveHttpClient c false
      let req : HttpRequest :=
        { host := httpClient.host, path := "/api/v3/query_sql"
          body := .obj [("db", .str database), ("q", .str query), ("format", .str format)] }
      match out with
      | .ok body => ([req], .ok body)
      | .err e => ([req], .error (handleQueryError e))
    | .other s => ([], .error (.thrown ("Unsupported InfluxDB product type: " ++ s)))

/-- The introspection query `getMeasurementSchema` selects per variant. -/
def schemaQueryFor : ProductType → String → Option String
  | .cloudDedicated, m => some ("SHOW COLUMNS IN " ++ m)
  | .core, m => some ("SELECT column_name, data_type FROM information_schema.columns WHERE table_name = '" ++ m ++ "' AND table_schema = 'iox'")
  | .enterprise, m => some ("SELECT column_name, data_type FROM information_schema.columns WHERE table_name = '" ++ m ++ "' AND table_schema = 'iox'")
  | .other _, _ => none

/-- Row reshaping of `getMeasurementSchema`: `{name: row.column_name, type: row.data_type}`. -/
def schemaColumnOf (row : Json) : Json :=
  .obj [("name", (jsGet row "column_name").getD .null),
        ("type", (jsGet row "data_type").getD .null)]

/-- `getMeasurementSchema(measurement, database)`: validates capabilities,
picks the variant-specific introspection query, runs it through
`executeQuery`, reshapes an array result into `{columns: [...]}` (a non-array
result is returned as-is), and rewrites any caught error whose message
includes "not found" into a table-does-not-exist error. -/
def getMeasurementSchema (c : InfluxConfig) (measurement database : String)
    (out : HttpOutcome) : List HttpRequest × Except OpError Json :=
  match validateDataCapabilities c with
  | .error e => ([], .error e)
  | .ok _ =>
    match schemaQueryFor c.type measurement with
    | none =>
      ([], .error (.thrown ("Unsupported InfluxDB product type: " ++
        (match c.type with | .other s => s | _ => ""))))
    | some q =>
      let r := executeQuery c q database "json" out
      (r.1,
        match r.2 with
        | .ok (.arr rows) => .ok (.obj [("columns", .arr (rows.map schemaColumnOf))])
        | .ok v => .ok v
        | .error e =>
          if strContains (opErrorMessage e) "not found" then
            .error (.thrown ("Table '" ++ measurement ++ "' does not exist in database '" ++ database ++ "'"))
          else
            .error (.thrown ("Failed to get schema for measurement '" ++ measurement ++ "': " ++ opErrorMessage e)))

/-! ## WriteService (src/services/write.service.ts) -/

/-- The message of the error `writeLineProtocol`'s catch block throws. -/
def writeErrorMessage (e : ErrResponse) (database : String) : String :=
  if e.status = some 400 then "Bad request: Invalid line protocol format or parameters"
  else if e.status = some 401 then "Unauthorized: Check your InfluxDB token permissions"
  else if e.status = some 403 then "Access denied: Insufficient permissions for database operations"
  else if e.status = some 413 then "Request entity too large: Reduce the size of your line protocol data"
  else if e.status = some 422 then "Unprocessable entity: Invalid line protocol syntax"
  else "Failed to write data to database '" ++ database ++ "': " ++ jsStringU e.data

/-- `writeLineProtocol(data, database, {precision, acceptPartial, noSync})`:
no capability check — the HTTP POST is issued unconditionally, and a failure
is mapped by the write-specific status branches. -/
def writeLineProtocol (c : InfluxConfig) (lineProtocolData database : String)
    (precision : String) (acceptPartial noSync : Bool) (out : HttpOutcome) :
    List HttpRequest × Except OpError Unit :=
  let httpClient := resolveHttpClient c false
  let req : HttpRequest :=
    { host := httpClient.host, path := "/api/v3/write_lp"
      params := [("db", database), ("precision", precision),
                 ("accept_partial", cond acceptPartial "true" "false"),
                 ("no_sync", cond noSync "true" "false")]
      body := .str lineProtocolData }
  match out with
  | .ok _ => ([req], .ok ())
  | .err e => ([req], .error (.thrown (writeErrorMessage e database)))

/-! ## DatabaseManagementService (src/services/database-management.service.ts) -/

/-- The shape-probing chain of `listDatabases` applied to a 2xx body: a
non-object / falsy body is rejected; then `response.databases` as an array,
then a bare array, then `data.databases || result.databases || databases`;
anything else raises the unexpected-structure error. -/
def listDatabasesExtract (response : Json) : Except String (List Json) :=
  if !(jsTruthy response && isObjectTypeof response) then
    .error "Invalid response format from InfluxDB API"
  else
    match jsGet response "databases", response,
      jsOrO (jsGetPath response "data" "databases")
        (jsOrO (jsGetPath response "result" "databases") (jsGet response "databases")) with
    | some (.arr xs), _, _ => .ok xs
    | _, .arr xs, _ => .ok xs
    | _, _, some (.arr xs) => .ok xs
    | _, _, _ => .error ("Unexpected response structure: " ++ jsonStringify response)

/-- Element normalization of `listDatabases`: string → `{name}`, object with a
truthy legacy `"iox::database"` value → `{name}`, object with a truthy `name`
→ `{name}`, anything else → `{name: String(item)}` — never an error. -/
def normalizeDatabaseItem (item : Json) : Json :=
  match item with
  | .str s => .obj [("name", .str s)]
  | _ =>
    if jsTruthy item && isObjectTypeof item && jsTruthyO (jsGet item "iox::database") then
      .obj [("name", (jsGet item "iox::database").getD .null)]
    else if jsTruthy item && isObjectTypeof item && jsTruthyO (jsGet item "name") then
      .obj [("name", (jsGet item "name").getD .null)]
    else
      .obj [("name", .str (jsString item))]

/-- Normalization of a 2xx `listDatabases` body: recognized collection mapped
element-wise, unrecognized shape propagated as an error. -/
def listDatabasesNormalize (response : Json) : Except String (List Json) :=
  (listDatabasesExtract response).map fun dbs => dbs.map normalizeDatabaseItem

/-- The message of the error `listDatabases`' catch block throws for a
transport failure `e`. -/
def listDatabasesErrorMessage (e : ErrResponse) : String :=
  if e.status = some 401 then "Unauthorized: Check your InfluxDB token permissions"
  else if e.status = some 404 then "Database endpoint not found: Check your InfluxDB version and URL"
  else if e.status = some 403 then "Forbidden: Token does not have sufficient permissions"
  else if jsTruthyO e.data then "InfluxDB API error: " ++ jsonStringify ((e.data).getD .null)
  else if e.code = some "ECONNREFUSED" then "Connection refused: Check if InfluxDB is running and URL is correct"
  else if e.code = some "ENOTFOUND" then "Host not found: Check your InfluxDB URL"
  else "Database list request failed: " ++ e.message

/-- `listDatabases()`: returns `[]` with no request when the client handle was
never built; otherwise issues the GET and either normalizes the body (a shape
error thrown inside the try is re-wrapped by the catch's fall-through branch)
or maps the transport failure. -/
def listDatabases (c : InfluxConfig) (out : HttpOutcome) :
    List HttpRequest × Except OpError Json :=
  if !(isConnected c) then ([], .ok (.arr []))
  else
    let httpClient := resolveHttpClient c false
    let req : HttpRequest :=
      { host := httpClient.host, path := "/api/v3/configure/database?format=json" }
    match out with
    | .ok body =>
      ([req],
        match listDatabasesNormalize body with
        | .ok items => .ok (.arr items)
        | .error m => .error (.thrown ("Database list request failed: " ++ m)))
    | .err e => ([req], .error (.thrown (listDatabasesErrorMessage e)))

/-- The message of the error `createDatabase`'s catch block throws. -/
def createDatabaseErrorMessage (e : ErrResponse) (name : String) : String :=
  if e.status = some 400 then "Bad request: Invalid database name '" ++ name ++ "'"
  else if e.status = some 401 then "Unauthorized: Check your InfluxDB token permissions"
  else if e.status = some 409 then "Database '" ++ name ++ "' already exists"
  else "Failed to create database '" ++ name ++ "': " ++ e.message

/-- `createDatabase(name)`: no capability check — the POST is issued
unconditionally. -/
def createDatabase (c : InfluxConfig) (name : String) (out : HttpOutcome) :
    List HttpRequest × Except OpError Bool :=
  let httpClient := resolveHttpClient c false
  let req : HttpRequest :=
    { host := httpClient.host, path := "/api/v3/configure/database"
      body := .obj [("db", .str name)] }
  match out with
  | .ok _ => ([req], .ok true)
  | .err e => ([req], .error (.thrown (createDatabaseErrorMessage e name)))

/-- The message of the error `deleteDatabase`'s catch block throws. -/
def deleteDatabaseErrorMessage (e : ErrResponse) (name : String) : String :=
  if e.status = some 401 then "Unauthorized: Check your InfluxDB token permissions"
  else if e.status = some 404 then "Database '" ++ name ++ "' not found"
  else "Failed to delete database '" ++ name ++ "': " ++ e.message

/-- `deleteDatabase(name)`: no capability check — the DELETE is issued
unconditionally. -/
def deleteDatabase (c : InfluxConfig) (name : String) (out : HttpOutcome) :
    List HttpRequest × Except OpError Bool :=
  let httpClient := resolveHttpClient c false
  let req : HttpRequest :=
    { host := httpClient.host, path := "/api/v3/configure/database"
      params := [("db", name)] }
  match out with
  | .ok _ => ([req], .ok true)
  | .err e => ([req], .error (.thrown (deleteDatabaseErrorMessage e name)))

/-! ## Diagnostics: ping and health (base-connection.service.ts) -/

/-- Outcome of a `fetch` call: a thrown transport error, or a response with
its `ok` flag, status, the two version/build headers, and a JSON body when
the body parses (`none` models a parse failure). -/
inductive FetchOutcome where
  | throws (msg : String)
  | response (respOk : Bool) (status : Nat) (versionHeader buildHeader : Option String)
      (jsonBody : Option Json)

/-- Result shape of `ping()`. -/
structure PingResult where
  ok : Bool
  version : Option String := none
  build : Option String := none
  message : Option String := none
deriving DecidableEq

/-- `ping()`: degrades every failure (missing data host, thrown fetch,
non-2xx response) to `{ok: false, message}`; on success reports the version
and build headers, defaulting build to "Other" when only a version header is
present. -/
def ping (c : InfluxConfig) (out : FetchOutcome) : PingResult :=
  if !(truthyS (getDataHost c)) then
    { ok := false, message := some "No data host configured" }
  else
    match out with
    | .throws m => { ok := false, message := some m }
    | .response true _ v b _ =>
      { ok := true, version := v
        build := match b with
          | some bb => some bb
          | none => match v with | some _ => some "Other" | none => none }
    | .response false s _ _ _ =>
      { ok := false, message := some ("Ping failed with status " ++ toString s) }

/-- `getHealthStatus()`: `{status:"fail"}` when the data host is falsy, the
client handle is null, the fetch throws, or the response is non-2xx; a 2xx
body is returned as-is, or `{status:"pass"}` when it does not parse. -/
def getHealthStatus (c : InfluxConfig) (out : FetchOutcome) : Json :=
  if !(truthyS (getDataHost c)) || (initializeClient c).isNone then
    .obj [("status", .str "fail")]
  else
    match out with
    | .throws _ => .obj [("status", .str "fail")]
    | .response true _ _ _ (some body) => body
    | .response true _ _ _ none => .obj [("status", .str "pass")]
    | .response false _ _ _ _ => .obj [("status", .str "fail")]

/-! ## Error taxonomy: per-dispatcher status classification -/

/-- The spec's error-taxonomy kinds. -/
inductive ErrorKind where
  | invalidArgument
  | unauthorized
  | forbidden
  | notFound
  | unsupportedOperation
  | conflict
  | payloadTooLarge
  | transportFailure
deriving DecidableEq

/-- Taxonomy kind of the branch `handleQueryError` takes for a status:
400/401/403/404/405/422 are handled explicitly, everything else (including
409, 413 and "no status") falls to the generic default branch. -/
def queryStatusKind : Option Nat → ErrorKind
  | some 400 => .invalidArgument
  | some 401 => .unauthorized
  | some 403 => .forbidden
  | some 404 => .notFound
  | some 405 => .unsupportedOperation
  | some 422 => .invalidArgument
  | _ => .transportFailure

/-- Taxonomy kind of the branch `writeLineProtocol`'s catch takes for a
status: 400/401/403/413/422 handled, everything else generic. -/
def writeStatusKind : Option Nat → ErrorKind
  | some 400 => .invalidArgument
  | some 401 => .unauthorized
  | some 403 => .forbidden
  | some 413 => .payloadTooLarge
  | some 422 => .invalidArgument
  | _ => .transportFailure

/-- Taxonomy kind of the branch `createDatabase`'s catch takes for a status:
400/401/409 handled, everything else generic. -/
def createDatabaseStatusKind : Option Nat → ErrorKind
  | some 400 => .invalidArgument
  | some 401 => .unauthorized
  | some 409 => .conflict
  | _ => .transportFailure

/-- Taxonomy kind of the branch `deleteDatabase`'s catch takes for a status:
401/404 handled, everything else generic. -/
def deleteDatabaseStatusKind : Option Nat → ErrorKind
  | some 401 => .unauthorized
  | some 404 => .notFound
  | _ => .transportFailure

/-- Taxonomy kind of the status-dispatched branches of `listDatabases`'
catch: 401/404/403 handled, everything else falls to content-dependent
fallbacks, all non-taxonomy generic messages. -/
def listDatabasesStatusKind : Option Nat → ErrorKind
  | some 401 => .unauthorized
  | some 404 => .notFound
  | some 403 => .forbidden
  | _ => .transportFailure

/-- The statuses `handleQueryError` handles with a dedicated branch. -/
def queryHandled (s : Option Nat) : Bool :=
  s ∈ [some 400, some 401, some 403, some 404, some 405, some 422]

/-- The statuses `writeLineProtocol` handles with a dedicated branch. -/
def writeHandled (s : Option Nat) : Bool :=
  s ∈ [some 400, some 401, some 403, some 413, some 422]

/-- The statuses `createDatabase` handles with a dedicated branch. -/
def createDatabaseHandled (s : Option Nat) : Bool :=
  s ∈ [some 400, some 401, some 409]

/-- The statuses `deleteDatabase` handles with a dedicated branch. -/
def deleteDatabaseHandled (s : Option Nat) : Bool :=
  s ∈ [some 401, some 404]

/-- The statuses `listDatabases` handles with a dedicated status branch. -/
def listDatabasesHandled (s : Option Nat) : Bool :=
  s ∈ [some 401, some 403, some 404]

/-! ## Definitions taken from the spec's words (for refinement claims) -/

/-- The spec's single shared Error Normalizer mapping (spec §4.6): 400 →
InvalidArgument, 401 → Unauthorized, 403 → Forbidden, 404 → NotFound, 405 →
UnsupportedOperation, 409 → Conflict, 413 → PayloadTooLarge, 422 →
InvalidArgument, anything else or no status → TransportFailure. -/
def specStatusKind : Option Nat → ErrorKind
  | some 400 => .invalidArgument
  | some 401 => .unauthorized
  | some 403 => .forbidden
  | some 404 => .notFound
  | some 405 => .unsupportedOperation
  | some 409 => .conflict
  | some 413 => .payloadTooLarge
  | some 422 => .invalidArgument
  | _ => .transportFailure

/-- The spec's variant-specific minimum credential set: token and URL for
core/enterprise, token and cluster id for cloud-dedicated. -/
def specMinimumDataCredentials (c : InfluxConfig) : Bool :=
  match c.type with
  | .cloudDedicated => truthyS c.token && truthyS c.cluster_id
  | _ => truthyS c.token && truthyS c.url

/-- Recognized 2xx shapes of `listDatabases` (spec §4.5): a truthy
object-typed body whose `databases` field is an array, or which is itself an
array, or whose `data.databases` / `result.databases` / `databases` probe (JS
`||` priority) yields an array. -/
def recognizedListShape (r : Json) : Bool :=
  jsTruthy r && isObjectTypeof r &&
    ((jsGet r "databases").any Json.isArr || r.isArr ||
      (jsOrO (jsGetPath r "data" "databases")
        (jsOrO (jsGetPath r "result" "databases") (jsGet r "databases"))).any Json.isArr)

/-- Whether an operation result is the CapabilityError of the spec. -/
def isCapabilityError {α : Type} : Except OpError α → Bool
  | .error (.capability _) => true
  | _ => false

/-- Whether an `Except` result is a success. -/
def isOkE {ε α : Type} : Except ε α → Bool
  | .ok _ => true
  | .error _ => false

/-- `typeof x === "string"`. -/
def Json.isStr : Json → Bool
  | .str _ => true
  | _ => false

/-- A fetch outcome that is a failure (thrown, or response with `ok` false). -/
def isFailOutcome : FetchOutcome → Bool
  | .throws _ => true
  | .response respOk _ _ _ _ => !respOk

/-! ## Concrete fixtures -/

/-- Fixture: a core configuration with URL and token (full data capabilities). -/
def cfgCore : InfluxConfig :=
  { type := .core, url := some "http://localhost:8181", token := some "t" }

/-- Fixture: a core configuration with a token but no URL (no data capabilities). -/
def cfgNoUrl : InfluxConfig :=
  { type := .core, token := some "t" }

/-- Fixture: cloud-dedicated with data token, cluster and account ids, but no
management token. -/
def cfgCloudNoMgmt : InfluxConfig :=
  { type := .cloudDedicated, token := some "t", cluster_id := some "abc123",
    account_id := some "acct" }

/-- Fixture: a 401 transport failure. -/
def err401 : ErrResponse :=
  { status := some 401, message := "Request failed with status code 401" }

/-- Fixture: a 404 transport failure. -/
def err404 : ErrResponse :=
  { status := some 404, message := "Request failed with status code 404" }

/-! # Theorems -/

/-- C7: for every configuration of a known product variant,
`hasDataCapabilities()` is true iff the spec's variant-specific minimum
credential set (token + URL for core/enterprise, token + cluster id for
cloud-dedicated) is present. -/
theorem hasDataCapabilities_iff_minimum_credentials (c : InfluxConfig)
    (h : c.type.isKnownVariant = true) :
    (hasDataCapabilities c = true) ↔ (specMinimumDataCredentials c = true) := by
  cases ht : c.type <;>
    simp_all [hasDataCapabilities, isValidConfig, specMinimumDataCredentials,
      ProductType.isKnownVariant, Bool.and_comm]

/-- Witness for C7 at a concrete core configuration. -/
theorem hasDataCapabilities_iff_minimum_credentials_witness :
    (hasDataCapabilities cfgCore = true) ↔ (specMinimumDataCredentials cfgCore = true) :=
  hasDataCapabilities_iff_minimum_credentials cfgCore (by decide)

/-- C8: for every configuration of a known product variant, the backend
client handle built at construction is non-null iff the variant's minimum
requirements (token + URL for self-hosted, token + cluster id for
cloud-dedicated) are satisfied; the handle is computed once from the
configuration and never rebuilt. -/
theorem client_handle_iff_minimum_requirements (c : InfluxConfig)
    (h : c.type.isKnownVariant = true) :
    ((initializeClient c).isSome = true) ↔ (specMinimumDataCredentials c = true) := by
  cases ht : c.type <;>
    simp_all [initializeClient, isValidConfig, specMinimumDataCredentials,
      ProductType.isKnownVariant, Bool.and_comm]

/-- Witness for C8 at a concrete cloud-dedicated configuration. -/
theorem client_handle_iff_minimum_requirements_witness :
    ((initializeClient cfgCloudNoMgmt).isSome = true) ↔
      (specMinimumDataCredentials cfgCloudNoMgmt = true) :=
  client_handle_iff_minimum_requirements cfgCloudNoMgmt (by decide)

/-- C2 counterexample: with a configuration lacking data capabilities (core,
token but no URL), `writeLineProtocol` does not fail with a CapabilityError
before issuing a request — it issues its HTTP POST unconditionally. -/
theorem writeLineProtocol_skips_capability_check :
    hasDataCapabilities cfgNoUrl = false ∧
    (writeLineProtocol cfgNoUrl "m f=1" "db" "nanosecond" true false (.err err401)).1.length = 1 ∧
    isCapabilityError
      (writeLineProtocol cfgNoUrl "m f=1" "db" "nanosecond" true false (.err err401)).2 = false := by
  refine ⟨by decide, rfl, rfl⟩

/-- C2 amended: `executeQuery` fails with a CapabilityError before issuing
any request whenever `hasDataCapabilities()` is false, but `writeLineProtocol`
performs no capability check: it issues its HTTP request unconditionally on
every configuration. -/
theorem executeQuery_capability_check_writeLineProtocol_none :
    (∀ (c : InfluxConfig) (q db f : String) (out : HttpOutcome),
      hasDataCapabilities c = false →
        executeQuery c q db f out =
          ([], .error (.capability "Data capabilities are not available with the current configuration"))) ∧
    (∀ (c : InfluxConfig) (d db p : String) (ap ns : Bool) (out : HttpOutcome),
      (writeLineProtocol c d db p ap ns out).1.length = 1 ∧
      isCapabilityError (writeLineProtocol c d db p ap ns out).2 = false) := by
  constructor
  · intro c q db f out h
    simp [executeQuery, validateDataCapabilities, h]
  · intro c d db p ap ns out
    cases out <;> simp [writeLineProtocol, isCapabilityError]

/-- Witness for the C2 amended theorem at a concrete configuration. -/
theorem executeQuery_capability_check_writeLineProtocol_none_witness :
    executeQuery cfgNoUrl "SELECT 1" "db" "json" (.ok (.arr [])) =
      ([], .error (.capability "Data capabilities are not available with the current configuration")) ∧
    (writeLineProtocol cfgNoUrl "m f=1" "db" "second" false true (.ok .null)).1.length = 1 :=
  ⟨executeQuery_capability_check_writeLineProtocol_none.1 cfgNoUrl "SELECT 1" "db" "json"
      (.ok (.arr [])) (by decide),
   (executeQuery_capability_check_writeLineProtocol_none.2 cfgNoUrl "m f=1" "db" "second"
      false true (.ok .null)).1⟩

/-- C3 counterexample: cloud-dedicated with only a data token (no management
token) has `hasManagementCapabilities()` false, yet `createDatabase` does not
fail with a CapabilityError — it attempts its network call. -/
theorem createDatabase_skips_capability_check :
    hasManagementCapabilities cfgCloudNoMgmt = false ∧
    (createDatabase cfgCloudNoMgmt "db" (.err err401)).1.length = 1 ∧
    isCapabilityError (createDatabase cfgCloudNoMgmt "db" (.err err401)).2 = false := by
  refine ⟨by decide, rfl, rfl⟩

/-- C3 amended: for cloud-dedicated configurations without a truthy
management token, `hasManagementCapabilities()` is false; but the management
dispatcher calls perform no capability check: `createDatabase` and
`deleteDatabase` always attempt their network call, and `listDatabases`
attempts it whenever the client handle exists — none of them raises a
CapabilityError. -/
theorem management_dispatchers_skip_capability_check :
    (∀ c : InfluxConfig, c.type = .cloudDedicated → truthyS c.management_token = false →
      hasManagementCapabilities c = false) ∧
    (∀ (c : InfluxConfig) (name : String) (out : HttpOutcome),
      (createDatabase c name out).1.length = 1 ∧
      isCapabilityError (createDatabase c name out).2 = false) ∧
    (∀ (c : InfluxConfig) (name : String) (out : HttpOutcome),
      (deleteDatabase c name out).1.length = 1 ∧
      isCapabilityError (deleteDatabase c name out).2 = false) ∧
    (∀ (c : InfluxConfig) (out : HttpOutcome), isConnected c = true →
      (listDatabases c out).1.length = 1 ∧
      isCapabilityError (listDatabases c out).2 = false) := by
  refine ⟨?_, ?_, ?_, ?_⟩
  · intro c ht hm
    simp [hasManagementCapabilities, ht, hm]
  · intro c name out
    cases out <;> simp [createDatabase, isCapabilityError]
  · intro c name out
    cases out <;> simp [deleteDatabase, isCapabilityError]
  · intro c out hc
    cases out with
    | ok body =>
      refine ⟨by simp [listDatabases, hc], ?_⟩
      simp only [listDatabases, hc]
      cases h : listDatabasesNormalize body <;> simp [isCapabilityError, h]
    | err e => exact ⟨by simp [listDatabases, hc], by simp [listDatabases, hc, isCapabilityError]⟩

/-- Witness for the C3 amended theorem at a concrete configuration. -/
theorem management_dispatchers_skip_capability_check_witness :
    hasManagementCapabilities cfgCloudNoMgmt = false ∧
    (listDatabases cfgCloudNoMgmt (.err err404)).1.length = 1 :=
  ⟨management_dispatchers_skip_capability_check.1 cfgCloudNoMgmt rfl (by decide),
   (management_dispatchers_skip_capability_check.2.2.2 cfgCloudNoMgmt (.err err404)
      (by decide)).1⟩

/-- C4 counterexample: the status classification is not identical across
dispatchers and does not match the spec's single mapping: the query handler
sends 409 and 413 to its generic default branch (409 → Conflict and 413 →
PayloadTooLarge only exist in `createDatabase` and `writeLineProtocol`
respectively), and 404 is NotFound in the query handler but generic in the
write handler. -/
theorem status_normalization_not_shared :
    queryStatusKind (some 409) = .transportFailure ∧
    specStatusKind (some 409) = .conflict ∧
    queryStatusKind (some 413) ≠ writeStatusKind (some 413) ∧
    queryStatusKind (some 404) ≠ writeStatusKind (some 404) := by
  decide

/-- C4 amended: there is no single shared error normalizer; each dispatcher
applies its own partial status map with a generic fall-through.  Where a
dispatcher handles a status with a dedicated branch, its kind agrees with the
spec's taxonomy mapping, and every dispatcher sends "no status" to the
generic branch; but the handled sets differ — query handles
{400,401,403,404,405,422}, write {400,401,403,413,422}, createDatabase
{400,401,409}, deleteDatabase {401,404}, listDatabases {401,403,404}. -/
theorem status_normalization_per_dispatcher :
    (∀ s, queryHandled s = true → queryStatusKind s = specStatusKind s) ∧
    (∀ s, writeHandled s = true → writeStatusKind s = specStatusKind s) ∧
    (∀ s, createDatabaseHandled s = true → createDatabaseStatusKind s = specStatusKind s) ∧
    (∀ s, deleteDatabaseHandled s = true → deleteDatabaseStatusKind s = specStatusKind s) ∧
    (∀ s, listDatabasesHandled s = true → listDatabasesStatusKind s = specStatusKind s) ∧
    (queryStatusKind none = .transportFailure ∧ writeStatusKind none = .transportFailure ∧
      createDatabaseStatusKind none = .transportFailure ∧
      deleteDatabaseStatusKind none = .transportFailure ∧
      listDatabasesStatusKind none = .transportFailure) ∧
    (queryHandled (some 409) = false ∧ queryHandled (some 413) = false ∧
      writeHandled (some 404) = false ∧ writeHandled (some 405) = false ∧
      writeHandled (some 409) = false) := by
  refine ⟨?_, ?_, ?_, ?_, ?_, by decide, by decide⟩
  · intro s h
    simp only [queryHandled, List.mem_cons, List.not_mem_nil, or_false,
      decide_eq_true_eq] at h
    rcases h with h | h | h | h | h | h <;> subst h <;> decide
  · intro s h
    simp only [writeHandled, List.mem_cons, List.not_mem_nil, or_false,
      decide_eq_true_eq] at h
    rcases h with h | h | h | h | h <;> subst h <;> decide
  · intro s h
    simp only [createDatabaseHandled, List.mem_cons, List.not_mem_nil, or_false,
      decide_eq_true_eq] at h
    rcases h with h | h | h <;> subst h <;> decide
  · intro s h
    simp only [deleteDatabaseHandled, List.mem_cons, List.not_mem_nil, or_false,
      decide_eq_true_eq] at h
    rcases h with h | h <;> subst h <;> decide
  · intro s h
    simp only [listDatabasesHandled, List.mem_cons, List.not_mem_nil, or_false,
      decide_eq_true_eq] at h
    rcases h with h | h | h <;> subst h <;> decide

/-- Witness for the C4 amended theorem at status 404 in the query handler. -/
theorem status_normalization_per_dispatcher_witness :
    queryStatusKind (some 404) = specStatusKind (some 404) :=
  status_normalization_per_dispatcher.1 (some 404) (by decide)

/-- C5 counterexample: for a cloud-dedicated configuration without a
management token, management endpoint resolution does not fail with a
ConfigurationError — `getInfluxHttpClient(true)` succeeds and silently
substitutes the empty string for the missing token. -/
theorem resolver_does_not_fail_counterexample :
    getInfluxHttpClient cfgCloudNoMgmt true =
      .ok { host := "https://console.influxdata.com", token := "" } := by
  rfl

/-- C5 amended: endpoint resolution never fails and performs no defensive
re-validation: for every configuration and request kind it returns a client,
and when the required host or token for the active variant is absent the
corresponding field is silently the empty string (`|| ""`), even when the
caller skipped the capability predicates. -/
theorem resolver_never_fails :
    (∀ (c : InfluxConfig) (fm : Bool),
      getInfluxHttpClient c fm = .ok (resolveHttpClient c fm)) ∧
    (∀ c : InfluxConfig, c.type = .cloudDedicated → c.management_token = none →
      (resolveHttpClient c true).token = "") ∧
    (∀ (c : InfluxConfig) (fm : Bool),
      (if fm then getManagementHost c else getDataHost c) = none →
        (resolveHttpClient c fm).host = "") := by
  refine ⟨fun c fm => rfl, ?_, ?_⟩
  · intro c ht hm
    simp [resolveHttpClient, ht, hm, orEmpty]
  · intro c fm h
    simp [resolveHttpClient, h, orEmpty]

/-- Witness for the C5 amended theorem at a concrete configuration. -/
theorem resolver_never_fails_witness :
    getInfluxHttpClient cfgCloudNoMgmt false = .ok (resolveHttpClient cfgCloudNoMgmt false) ∧
    (resolveHttpClient cfgCloudNoMgmt true).token = "" :=
  ⟨resolver_never_fails.1 cfgCloudNoMgmt false,
   resolver_never_fails.2.1 cfgCloudNoMgmt rfl rfl⟩

/-- C1: for every data-capable configuration of a known product variant,
`getMeasurementSchema` returns `{columns: []}` on the empty-array fixture
response (existing zero-column table), and fails with the table-not-found
error on a backend failure whose normalized message includes "not found"
(non-existent table) — so the two fixture cases are distinguishable from the
result. -/
theorem getMeasurementSchema_distinguishes_missing_table
    (c : InfluxConfig) (m db : String)
    (hk : c.type.isKnownVariant = true) (hd : hasDataCapabilities c = true) :
    (getMeasurementSchema c m db (.ok (.arr []))).2 = .ok (.obj [("columns", .arr [])]) ∧
    (∀ e : ErrResponse,
      strContains (opErrorMessage (handleQueryError e)) "not found" = true →
        (getMeasurementSchema c m db (.err e)).2 =
          .error (.thrown ("Table '" ++ m ++ "' does not exist in database '" ++ db ++ "'"))) := by
  have hv : isValidConfig c = true := hd
  refine ⟨?_, ?_⟩
  · cases ht : c.type <;>
      simp_all [ProductType.isKnownVariant, getMeasurementSchema, validateDataCapabilities,
        hasDataCapabilities, schemaQueryFor, executeQuery, initializeClient]
  · intro e he
    cases ht : c.type <;>
      simp_all [ProductType.isKnownVariant, getMeasurementSchema, validateDataCapabilities,
        hasDataCapabilities, schemaQueryFor, executeQuery, initializeClient]

/-- Witness for C1: a core configuration, the empty-array fixture and a 404
fixture. -/
theorem getMeasurementSchema_distinguishes_missing_table_witness :
    (getMeasurementSchema cfgCore "cpu" "mydb" (.ok (.arr []))).2 =
      .ok (.obj [("columns", .arr [])]) ∧
    (getMeasurementSchema cfgCore "cpu" "mydb" (.err err404)).2 =
      .error (.thrown "Table 'cpu' does not exist in database 'mydb'") :=
  ⟨(getMeasurementSchema_distinguishes_missing_table cfgCore "cpu" "mydb"
      (by decide) (by decide)).1,
   (getMeasurementSchema_distinguishes_missing_table cfgCore "cpu" "mydb"
      (by decide) (by decide)).2 err404 (by decide)⟩

/-- C9: the diagnostics are fail-soft: for every configuration and transport
outcome, a missing data host yields `{ok:false}` / `{status:"fail"}`, a
thrown fetch or non-2xx response yields `ok:false` from `ping()` and
`{status:"fail"}` from `getHealthStatus()`, and a null client handle yields
`{status:"fail"}` — no failure is propagated as an error. -/
theorem diagnostics_fail_soft (c : InfluxConfig) (out : FetchOutcome) :
    (truthyS (getDataHost c) = false →
      ping c out = { ok := false, message := some "No data host configured" } ∧
      getHealthStatus c out = .obj [("status", .str "fail")]) ∧
    (isFailOutcome out = true →
      (ping c out).ok = false ∧
      getHealthStatus c out = .obj [("status", .str "fail")]) ∧
    ((initializeClient c).isNone = true →
      getHealthStatus c out = .obj [("status", .str "fail")]) := by
  refine ⟨fun h => ⟨by simp [ping, h], by simp [getHealthStatus, h]⟩, ?_, ?_⟩
  · intro h
    constructor
    · by_cases hu : truthyS (getDataHost c) = true
      · cases out with
        | throws msg => simp [ping, hu]
        | response respOk s v b j =>
          cases respOk with
          | false => simp [ping, hu]
          | true => simp [isFailOutcome] at h
      · simp at hu
        simp [ping, hu]
    · by_cases hu : truthyS (getDataHost c) = true
      · cases out with
        | throws msg => simp [getHealthStatus, hu]
        | response respOk s v b j =>
          cases respOk with
          | false => cases j <;> simp [getHealthStatus, hu]
          | true => simp [isFailOutcome] at h
      · simp at hu
        simp [getHealthStatus, hu]
  · intro h
    simp [getHealthStatus, h]

/-- Witness for C9 at a concrete configuration and a thrown fetch. -/
theorem diagnostics_fail_soft_witness :
    (ping cfgNoUrl (.throws "ECONNREFUSED") =
      { ok := false, message := some "No data host configured" }) ∧
    ((ping cfgCore (.throws "ECONNREFUSED")).ok = false ∧
      getHealthStatus cfgCore (.throws "ECONNREFUSED") = .obj [("status", .str "fail")]) :=
  ⟨((diagnostics_fail_soft cfgNoUrl (.throws "ECONNREFUSED")).1 (by decide)).1,
   (diagnostics_fail_soft cfgCore (.throws "ECONNREFUSED")).2.1 (by decide)⟩

/-- The shape probe of `listDatabasesExtract` fails on every body outside the
recognized shapes. -/
theorem listDatabasesExtract_unrecognized (r : Json)
    (h : recognizedListShape r = false) :
    isOkE (listDatabasesExtract r) = false := by
  unfold recognizedListShape at h
  unfold listDatabasesExtract
  by_cases hb : (jsTruthy r && isObjectTypeof r) = true
  · rw [Bool.and_eq_true] at hb
    obtain ⟨ht, ho⟩ := hb
    simp only [ht, ho, Bool.true_and, Bool.or_eq_false_iff] at h
    obtain ⟨⟨h1, h2⟩, h3⟩ := h
    rw [if_neg (by simp [ht, ho])]
    split <;> simp_all [Option.any_some, Option.any_none, Json.isArr, isOkE]
  · have hb' : (jsTruthy r && isObjectTypeof r) = false := by
      revert hb
      cases (jsTruthy r && isObjectTypeof r) <;> simp
    rw [if_pos (by rw [hb']; rfl)]
    simp [isOkE]

/-- C6: `listDatabases` normalizes each of the three documented 2xx shapes
(bare string array, `{databases:[...]}`, nested `{data:{databases:[...]}}`)
to the same list of `{name}` objects, and every body matching none of the
recognized shapes fails with an error rather than yielding a list. -/
theorem listDatabases_shape_normalization :
    (∀ names : List String,
      listDatabasesNormalize (.arr (names.map Json.str)) =
        .ok (names.map fun n => .obj [("name", .str n)]) ∧
      listDatabasesNormalize (.obj [("databases", .arr (names.map Json.str))]) =
        .ok (names.map fun n => .obj [("name", .str n)]) ∧
      listDatabasesNormalize (.obj [("data", .obj [("databases", .arr (names.map Json.str))])]) =
        .ok (names.map fun n => .obj [("name", .str n)])) ∧
    (∀ r : Json, recognizedListShape r = false →
      ∃ msg, listDatabasesNormalize r = .error msg) := by
  constructor
  · intro names
    refine ⟨?_, ?_, ?_⟩ <;>
      · show Except.ok ((names.map Json.str).map normalizeDatabaseItem) = _
        rw [List.map_map]
        rfl
  · intro r h
    have hE := listDatabasesExtract_unrecognized r h
    cases hEx : listDatabasesExtract r with
    | ok xs => rw [hEx] at hE; simp [isOkE] at hE
    | error m => exact ⟨m, by simp [listDatabasesNormalize, hEx, Except.map]⟩

/-- Witness for C6: the three shapes with names ["a", "b"], and the
unrecognized body `{"status": "ok"}`. -/
theorem listDatabases_shape_normalization_witness :
    listDatabasesNormalize (.arr [.str "a", .str "b"]) =
      .ok [.obj [("name", .str "a")], .obj [("name", .str "b")]] ∧
    (∃ msg, listDatabasesNormalize (.obj [("status", .str "ok")]) = .error msg) :=
  ⟨(listDatabases_shape_normalization.1 ["a", "b"]).1,
   listDatabases_shape_normalization.2 (.obj [("status", .str "ok")]) (by decide)⟩

/-- C10: element normalization of `listDatabases` never fails: an item that
is not a string, carries no legacy `"iox::database"` key and has no `name`
field is coerced to `{name: String(item)}`. -/
theorem normalizeDatabaseItem_stringifies (item : Json)
    (hs : item.isStr = false)
    (h1 : jsGet item "iox::database" = none)
    (h2 : jsGet item "name" = none) :
    normalizeDatabaseItem item = .obj [("name", .str (jsString item))] := by
  cases item <;> simp_all [normalizeDatabaseItem, Json.isStr, jsTruthyO]

/-- Witness for C10 at the numeric element 42 (neither string nor object). -/
theorem normalizeDatabaseItem_stringifies_witness :
    normalizeDatabaseItem (.num 42) = .obj [("name", .str (jsString (.num 42)))] :=
  normalizeDatabaseItem_stringifies (.num 42) rfl rfl rfl

end Influx
